import Mathlib

/-!
Verification of the CloudFlareManager core algorithms: DNS reconciliation
(validateAndFixDnsRecords), infrastructure-wide aggregation
(validateConnectreeInfrastructure), the composite health check
(comprehensiveHealthCheck), deployment-environment preparation
(prepareDeploymentEnvironment) and the deployment readiness report
(generateDeploymentReport).

The embedding is shallow: TypeScript records become structures, optional
fields become Option, remote reads become Except-valued inputs, and the
writes attempted by auto-fix are collected into an explicit list.
-/

namespace CloudFlareManager

/-- Health status values used throughout the manager. -/
inductive Status
  | healthy
  | degraded
  | unhealthy
deriving DecidableEq, Repr

/-- A desired DNS record passed to validateAndFixDnsRecords
(`{name, type, content, proxied?, ttl?}`). -/
structure ExpectedRecord where
  name : String
  type : String
  content : String
  proxied : Option Bool
  ttl : Option Nat
deriving DecidableEq, Repr

/-- An observed DNS record as returned by listDnsRecords. -/
structure DnsRecord where
  id : String
  name : String
  type : String
  content : String
  proxied : Bool
  ttl : Nat
deriving DecidableEq, Repr

/-- The issue taxonomy of validateAndFixDnsRecords. -/
inductive IssueKind
  | missing
  | incorrect
  | extra
deriving DecidableEq, Repr

/-- The action field attached to an issue. -/
inductive IssueAction
  | CREATE
  | REQUIRES_CREATION
  | UPDATE
  | REQUIRES_UPDATE
deriving DecidableEq, Repr

/-- One entry of the issues array: for a missing issue the record is the
desired record, for an incorrect issue it is the observed record with the
desired one in the expected field. -/
structure Issue where
  kind : IssueKind
  record : ExpectedRecord ⊕ DnsRecord
  expected : Option ExpectedRecord
  action : IssueAction
deriving DecidableEq, Repr

/-- A remote write attempted during auto-fix. -/
inductive WriteCall
  | create (payload : ExpectedRecord)
  | update (id : String) (payload : ExpectedRecord)
deriving DecidableEq, Repr

/-- The ttl clause of the incorrect-record test, from the source condition
`expected.ttl && existing.ttl !== expected.ttl`: a desired ttl of 0 is falsy
in the source language, so the comparison is skipped for it. -/
def ttlMismatch : Option Nat → Nat → Bool
  | none, _ => false
  | some t, observed => t != 0 && observed != t

/-- `existingRecords.find(r => r.name === expected.name && r.type === expected.type)`. -/
def findMatch (existing : List DnsRecord) (e : ExpectedRecord) : Option DnsRecord :=
  existing.find? (fun r => r.name == e.name && r.type == e.type)

/-- The incorrect-record condition of the source:
`existing.content !== expected.content || existing.proxied !== (expected.proxied ?? false)
 || (expected.ttl && existing.ttl !== expected.ttl)`. -/
def recordIncorrect (ex : DnsRecord) (e : ExpectedRecord) : Bool :=
  ex.content != e.content || ex.proxied != e.proxied.getD false || ttlMismatch e.ttl ex.ttl

/-- Classification of one desired record: the issue raised for it (if any)
together with the write calls attempted for it when autoFix is on. -/
def classifyRecord (existing : List DnsRecord) (autoFix : Bool) (e : ExpectedRecord) :
    Option Issue × List WriteCall :=
  match findMatch existing e with
  | none =>
      (some { kind := .missing, record := .inl e, expected := none,
              action := if autoFix then .CREATE else .REQUIRES_CREATION },
       if autoFix then [.create e] else [])
  | some ex =>
      if recordIncorrect ex e then
        (some { kind := .incorrect, record := .inr ex, expected := some e,
                action := if autoFix then .UPDATE else .REQUIRES_UPDATE },
         if autoFix then [.update ex.id e] else [])
      else (none, [])

/-- The pre-fix issue list of validateAndFixDnsRecords: the loop over the
desired records, each contributing at most one issue. -/
def dnsValidationIssues (expected : List ExpectedRecord) (existing : List DnsRecord)
    (autoFix : Bool) : List Issue :=
  expected.filterMap (fun e => (classifyRecord existing autoFix e).1)

/-- The write calls attempted by validateAndFixDnsRecords, in loop order. -/
def dnsValidationWrites (expected : List ExpectedRecord) (existing : List DnsRecord)
    (autoFix : Bool) : List WriteCall :=
  expected.flatMap (fun e => (classifyRecord existing autoFix e).2)

/-- The record returned by validateAndFixDnsRecords. -/
structure DnsValidationResult where
  valid : Bool
  issues : List Issue
  fixed : Bool
deriving DecidableEq, Repr

/-- validateAndFixDnsRecords: the returned record plus the attempted write
calls paired with their outcome. writeOk models whether each remote write
succeeds; in the source a failed write is caught and only logged, so the
outcome reaches nothing else. -/
def validateAndFixDnsRecords (writeOk : WriteCall → Bool) (expected : List ExpectedRecord)
    (existing : List DnsRecord) (autoFix : Bool) :
    DnsValidationResult × List (WriteCall × Bool) :=
  let issues := dnsValidationIssues expected existing autoFix
  ({ valid := issues.length == 0, issues := issues,
     fixed := autoFix && decide (0 < issues.length) },
   (dnsValidationWrites expected existing autoFix).map (fun c => (c, writeOk c)))

/-- The spec reading of the ttl clause in claim C2: the desired ttl is set
(present) and differs from the observed ttl. -/
def ttlSetAndDiffers (t? : Option Nat) (observed : Nat) : Bool :=
  t?.isSome && t? != some observed

/-- The incorrect-record condition as claim C2 words it. -/
def specIncorrectC2 (ex : DnsRecord) (e : ExpectedRecord) : Bool :=
  ex.content != e.content || ex.proxied != e.proxied.getD false || ttlSetAndDiffers e.ttl ex.ttl

/-- The per-record classification as claim C2 words it: missing when no
observed record matches on (name, type); incorrect when a match exists but
content, proxied (defaulted to false), or a set ttl differs. -/
def specClassifyC2 (existing : List DnsRecord) (e : ExpectedRecord) : Option IssueKind :=
  match findMatch existing e with
  | none => some .missing
  | some ex => if specIncorrectC2 ex e then some .incorrect else none

/-- Amended ttl clause: the desired ttl is set to a nonzero value and differs
from the observed ttl. -/
def ttlSetNonzeroAndDiffers : Option Nat → Nat → Bool
  | none, _ => false
  | some t, observed => t != 0 && observed != t

/-- The incorrect-record condition of the amended claim C2. -/
def specIncorrectC2Amended (ex : DnsRecord) (e : ExpectedRecord) : Bool :=
  ex.content != e.content || ex.proxied != e.proxied.getD false
    || ttlSetNonzeroAndDiffers e.ttl ex.ttl

/-- The per-record classification of the amended claim C2. -/
def specClassifyC2Amended (existing : List DnsRecord) (e : ExpectedRecord) : Option IssueKind :=
  match findMatch existing e with
  | none => some .missing
  | some ex => if specIncorrectC2Amended ex e then some .incorrect else none

lemma ttlSetNonzeroAndDiffers_eq_ttlMismatch (t? : Option Nat) (observed : Nat) :
    ttlSetNonzeroAndDiffers t? observed = ttlMismatch t? observed := by
  cases t? <;> rfl

lemma specIncorrectC2Amended_eq_recordIncorrect (ex : DnsRecord) (e : ExpectedRecord) :
    specIncorrectC2Amended ex e = recordIncorrect ex e := by
  rw [specIncorrectC2Amended, recordIncorrect, ttlSetNonzeroAndDiffers_eq_ttlMismatch]

/-- C2 (amended): each desired record is classified into exactly one of
unflagged, missing, incorrect: missing exactly when no observed record
matches on (name, type); incorrect exactly when a match exists but its
content differs, or its proxied flag differs from the desired proxied
defaulted to false, or the desired ttl is set to a NONZERO value and differs
from the observed ttl; the issues list gains at most one entry per desired
record. -/
theorem classification_matches_spec (existing : List DnsRecord) (autoFix : Bool)
    (e : ExpectedRecord) (expected : List ExpectedRecord) :
    ((classifyRecord existing autoFix e).1.map Issue.kind = specClassifyC2Amended existing e)
      ∧ (dnsValidationIssues expected existing autoFix).length ≤ expected.length := by
  constructor
  · cases hfm : findMatch existing e with
    | none => simp [classifyRecord, specClassifyC2Amended, hfm]
    | some ex =>
        by_cases h : recordIncorrect ex e <;>
          simp [classifyRecord, specClassifyC2Amended, hfm,
            specIncorrectC2Amended_eq_recordIncorrect, h]
  · exact List.length_filterMap_le _ _

/-- C2 counterexample: a desired record whose ttl is set to 0 and differs
from the observed ttl is not flagged by the code (the ttl comparison is
skipped because 0 is falsy), while the claim as stated classifies it as
incorrect. -/
theorem classification_spec_counterexample :
    ((classifyRecord
        [{ id := "r1", name := "a.example.com", type := "CNAME", content := "x",
           proxied := false, ttl := 300 }] false
        { name := "a.example.com", type := "CNAME", content := "x",
          proxied := some false, ttl := some 0 }).1.map Issue.kind = none)
      ∧ specClassifyC2
          [{ id := "r1", name := "a.example.com", type := "CNAME", content := "x",
             proxied := false, ttl := 300 }]
          { name := "a.example.com", type := "CNAME", content := "x",
            proxied := some false, ttl := some 0 } = some .incorrect := by
  constructor <;> rfl

/-- Witness for C2 (amended) at a concrete desired record with no observed
counterpart. -/
theorem classification_matches_spec_witness :
    ((classifyRecord [] false
        { name := "a.example.com", type := "CNAME", content := "target.example.net",
          proxied := some true, ttl := some 1 }).1.map Issue.kind
      = specClassifyC2Amended []
          { name := "a.example.com", type := "CNAME", content := "target.example.net",
            proxied := some true, ttl := some 1 })
    ∧ (dnsValidationIssues
        [{ name := "a.example.com", type := "CNAME", content := "target.example.net",
           proxied := some true, ttl := some 1 }] [] false).length
      ≤ ([{ name := "a.example.com", type := "CNAME", content := "target.example.net",
            proxied := some true, ttl := some 1 }] : List ExpectedRecord).length :=
  classification_matches_spec [] false
    { name := "a.example.com", type := "CNAME", content := "target.example.net",
      proxied := some true, ttl := some 1 }
    [{ name := "a.example.com", type := "CNAME", content := "target.example.net",
       proxied := some true, ttl := some 1 }]

/-- A write-outcome model where every remote write succeeds. -/
def alwaysOk : WriteCall → Bool := fun _ => true

/-- A write-outcome model where every remote write fails. -/
def neverOk : WriteCall → Bool := fun _ => false

lemma classifyRecord_map_kind (existing : List DnsRecord) (autoFix : Bool)
    (e : ExpectedRecord) :
    (classifyRecord existing autoFix e).1.map Issue.kind = specClassifyC2Amended existing e := by
  cases hfm : findMatch existing e with
  | none => simp [classifyRecord, specClassifyC2Amended, hfm]
  | some ex =>
      by_cases h : recordIncorrect ex e <;>
        simp [classifyRecord, specClassifyC2Amended, hfm,
          specIncorrectC2Amended_eq_recordIncorrect, h]

/-- C3: the returned valid flag is true exactly when the pre-fix issue list is
empty, the fixed flag is true exactly when autoFix is on and the pre-fix issue
list is non-empty, the issues array is the pre-fix classification, and the
whole returned record is independent of which writes succeed. -/
theorem validation_flags (writeOk writeOk2 : WriteCall → Bool) (expected : List ExpectedRecord)
    (existing : List DnsRecord) (autoFix : Bool) :
    ((validateAndFixDnsRecords writeOk expected existing autoFix).1.valid = true
        ↔ (validateAndFixDnsRecords writeOk expected existing autoFix).1.issues = [])
      ∧ ((validateAndFixDnsRecords writeOk expected existing autoFix).1.fixed = true
        ↔ autoFix = true
            ∧ (validateAndFixDnsRecords writeOk expected existing autoFix).1.issues ≠ [])
      ∧ (validateAndFixDnsRecords writeOk expected existing autoFix).1.issues
        = dnsValidationIssues expected existing autoFix
      ∧ (validateAndFixDnsRecords writeOk expected existing autoFix).1
        = (validateAndFixDnsRecords writeOk2 expected existing autoFix).1 := by
  refine ⟨?_, ?_, rfl, rfl⟩
  · simp [validateAndFixDnsRecords, List.length_eq_zero]
  · simp [validateAndFixDnsRecords, Nat.pos_iff_ne_zero, List.length_eq_zero]

/-- Witness for C3: the returned record does not depend on the write
outcomes. -/
theorem validation_flags_witness :
    (validateAndFixDnsRecords alwaysOk [] [] false).1
      = (validateAndFixDnsRecords neverOk [] [] false).1 :=
  (validation_flags alwaysOk neverOk [] [] false).2.2.2

/-- C9: every issue returned by the reconciliation has kind missing or
incorrect; the kind extra is never raised, so observed records absent from
the desired set are never flagged. -/
theorem reconciliation_never_extra (expected : List ExpectedRecord)
    (existing : List DnsRecord) (autoFix : Bool) :
    ∀ i ∈ dnsValidationIssues expected existing autoFix,
      i.kind = IssueKind.missing ∨ i.kind = IssueKind.incorrect := by
  intro i hi
  obtain ⟨e, -, he⟩ := List.mem_filterMap.mp hi
  have h := classifyRecord_map_kind existing autoFix e
  rw [he, specClassifyC2Amended] at h
  cases hfm : findMatch existing e with
  | none =>
      rw [hfm] at h
      left
      simpa using h
  | some ex =>
      rw [hfm] at h
      by_cases hc : specIncorrectC2Amended ex e <;> simp [hc] at h
      right
      exact h

/-- Witness for C9 at a concrete input: a desired record with no observed
counterpart yields its missing issue, whose kind is missing or incorrect. -/
theorem reconciliation_never_extra_witness :
    ({ kind := IssueKind.missing,
       record := Sum.inl { name := "a.example.com", type := "CNAME",
                           content := "target.example.net", proxied := some true,
                           ttl := some 1 },
       expected := none, action := IssueAction.REQUIRES_CREATION } : Issue).kind
        = IssueKind.missing
      ∨ ({ kind := IssueKind.missing,
           record := Sum.inl { name := "a.example.com", type := "CNAME",
                               content := "target.example.net", proxied := some true,
                               ttl := some 1 },
           expected := none, action := IssueAction.REQUIRES_CREATION } : Issue).kind
        = IssueKind.incorrect :=
  reconciliation_never_extra
    [{ name := "a.example.com", type := "CNAME", content := "target.example.net",
       proxied := some true, ttl := some 1 }] [] false _ (by decide)

/-- The key on which the reconciliation matches desired against observed. -/
def recordKey (e : ExpectedRecord) : String × String := (e.name, e.type)

/-- The observed record realising a desired record exactly: proxied defaulted
to false, a missing desired ttl realised as 1 (auto). -/
def toObserved (e : ExpectedRecord) : DnsRecord :=
  { id := "", name := e.name, type := e.type, content := e.content,
    proxied := e.proxied.getD false, ttl := e.ttl.getD 1 }

lemma findMatch_toObserved (expected : List ExpectedRecord)
    (h : (expected.map recordKey).Nodup) (e : ExpectedRecord) (he : e ∈ expected) :
    findMatch (expected.map toObserved) e = some (toObserved e) := by
  induction expected with
  | nil => cases he
  | cons a l ih =>
      rw [List.map_cons, List.nodup_cons] at h
      rcases List.mem_cons.mp he with rfl | hmem
      · rw [findMatch, List.map_cons, List.find?_cons_of_pos]
        simp [toObserved]
      · have hkey : recordKey a ≠ recordKey e := by
          intro hk
          exact h.1 (hk ▸ List.mem_map_of_mem recordKey hmem)
        rw [findMatch, List.map_cons, List.find?_cons_of_neg]
        · exact ih h.2 hmem
        · intro hp
          simp [toObserved] at hp
          exact hkey (by rw [recordKey, recordKey, hp.1, hp.2])

lemma recordIncorrect_toObserved (e : ExpectedRecord) :
    recordIncorrect (toObserved e) e = false := by
  rcases e with ⟨n, t, c, p, ttl⟩
  cases ttl <;> simp [recordIncorrect, toObserved, ttlMismatch]

/-- C4 (amended): for a desired set whose (name, type) keys are pairwise
distinct, reconciling against an observed set that realises every desired
record exactly yields an empty issue list and attempts no write calls, even
with auto-fix on. -/
theorem reconcile_idempotent (expected : List ExpectedRecord)
    (h : (expected.map recordKey).Nodup) :
    dnsValidationIssues expected (expected.map toObserved) true = []
      ∧ dnsValidationWrites expected (expected.map toObserved) true = [] := by
  constructor
  · rw [dnsValidationIssues, List.filterMap_eq_nil_iff]
    intro e he
    simp [classifyRecord, findMatch_toObserved expected h e he, recordIncorrect_toObserved]
  · rw [dnsValidationWrites, List.flatMap_eq_nil_iff]
    intro e he
    simp [classifyRecord, findMatch_toObserved expected h e he, recordIncorrect_toObserved]

/-- Witness for C4 (amended) at a concrete two-record desired set with
distinct (name, type) keys. -/
theorem reconcile_idempotent_witness :
    (([{ name := "a.example.com", type := "A", content := "1.1.1.1",
         proxied := some false, ttl := some 300 },
       { name := "b.example.com", type := "A", content := "2.2.2.2",
         proxied := some false, ttl := some 300 }] :
        List ExpectedRecord).map recordKey).Nodup
      ∧ (dnsValidationIssues
          [{ name := "a.example.com", type := "A", content := "1.1.1.1",
             proxied := some false, ttl := some 300 },
           { name := "b.example.com", type := "A", content := "2.2.2.2",
             proxied := some false, ttl := some 300 }]
          (([{ name := "a.example.com", type := "A", content := "1.1.1.1",
               proxied := some false, ttl := some 300 },
             { name := "b.example.com", type := "A", content := "2.2.2.2",
               proxied := some false, ttl := some 300 }] :
              List ExpectedRecord).map toObserved) true = []
        ∧ dnsValidationWrites
            [{ name := "a.example.com", type := "A", content := "1.1.1.1",
               proxied := some false, ttl := some 300 },
             { name := "b.example.com", type := "A", content := "2.2.2.2",
               proxied := some false, ttl := some 300 }]
            (([{ name := "a.example.com", type := "A", content := "1.1.1.1",
                 proxied := some false, ttl := some 300 },
               { name := "b.example.com", type := "A", content := "2.2.2.2",
                 proxied := some false, ttl := some 300 }] :
                List ExpectedRecord).map toObserved) true = []) :=
  ⟨by decide, reconcile_idempotent _ (by decide)⟩

/-- C4 counterexample: a desired set with two records sharing the same
(name, type) key but different contents, observed exactly as desired: every
desired record has an observed record equal to it on name, type, content,
proxied (defaulted) and ttl, yet reconciliation with auto-fix flags an
incorrect issue and attempts a write, because matching picks the first
observed record with the key. -/
theorem reconcile_idempotent_counterexample :
    ([{ name := "a.example.com", type := "A", content := "1.1.1.1",
        proxied := some false, ttl := some 300 },
      { name := "a.example.com", type := "A", content := "2.2.2.2",
        proxied := some false, ttl := some 300 }] :
       List ExpectedRecord).all (fun e =>
        ([{ id := "r1", name := "a.example.com", type := "A", content := "1.1.1.1",
            proxied := false, ttl := 300 },
          { id := "r2", name := "a.example.com", type := "A", content := "2.2.2.2",
            proxied := false, ttl := 300 }] : List DnsRecord).any (fun o =>
          o.name == e.name && o.type == e.type && o.content == e.content
            && o.proxied == e.proxied.getD false && some o.ttl == e.ttl)) = true
      ∧ dnsValidationIssues
          [{ name := "a.example.com", type := "A", content := "1.1.1.1",
             proxied := some false, ttl := some 300 },
           { name := "a.example.com", type := "A", content := "2.2.2.2",
             proxied := some false, ttl := some 300 }]
          [{ id := "r1", name := "a.example.com", type := "A", content := "1.1.1.1",
             proxied := false, ttl := 300 },
           { id := "r2", name := "a.example.com", type := "A", content := "2.2.2.2",
             proxied := false, ttl := 300 }] true ≠ []
      ∧ dnsValidationWrites
          [{ name := "a.example.com", type := "A", content := "1.1.1.1",
             proxied := some false, ttl := some 300 },
           { name := "a.example.com", type := "A", content := "2.2.2.2",
             proxied := some false, ttl := some 300 }]
          [{ id := "r1", name := "a.example.com", type := "A", content := "1.1.1.1",
             proxied := false, ttl := 300 },
           { id := "r2", name := "a.example.com", type := "A", content := "2.2.2.2",
             proxied := false, ttl := 300 }] true ≠ [] := by
  refine ⟨by decide, by decide, by decide⟩

/-- The overall verdict of validateConnectreeInfrastructure, from the source
if-chain: healthy when all four component validities hold; else degraded when
DNS is invalid with at most 2 issues or certificates are invalid; else
unhealthy. -/
def overallInfrastructureHealth (dnsValid : Bool) (dnsIssueCount : Nat)
    (pagesValid workersValid sslValid : Bool) : Status :=
  if dnsValid && pagesValid && workersValid && sslValid then .healthy
  else if (!dnsValid && decide (dnsIssueCount ≤ 2)) || !sslValid then .degraded
  else .unhealthy

/-- The aggregation as claim C1 words it: degraded exactly when DNS is
invalid with at most 2 issues, or certificates are invalid WHILE THE OTHER
THREE CHECKS PASS. -/
def specOverallC1 (dnsValid : Bool) (dnsIssueCount : Nat)
    (pagesValid workersValid sslValid : Bool) : Status :=
  if dnsValid && pagesValid && workersValid && sslValid then .healthy
  else if (!dnsValid && decide (dnsIssueCount ≤ 2))
      || (!sslValid && dnsValid && pagesValid && workersValid) then .degraded
  else .unhealthy

/-- C1 counterexample: with DNS invalid carrying 3 issues, hosting and
compute valid, certificates invalid, the code returns degraded (the
certificate disjunct needs no other check to pass) while the claim as stated
returns unhealthy. -/
theorem infrastructure_overall_counterexample :
    overallInfrastructureHealth false 3 true true false = Status.degraded
      ∧ specOverallC1 false 3 true true false = Status.unhealthy := by
  exact ⟨rfl, rfl⟩

/-- C1 (amended): the strict aggregation returns healthy exactly when all
four validities are true; degraded exactly when DNS is invalid with at most
2 issues or certificates are invalid (regardless of the other checks); and
unhealthy in every other case. -/
theorem infrastructure_overall_characterization (dnsValid pagesValid workersValid sslValid : Bool)
    (dnsIssueCount : Nat) :
    (overallInfrastructureHealth dnsValid dnsIssueCount pagesValid workersValid sslValid
        = Status.healthy
      ↔ dnsValid = true ∧ pagesValid = true ∧ workersValid = true ∧ sslValid = true)
    ∧ (overallInfrastructureHealth dnsValid dnsIssueCount pagesValid workersValid sslValid
        = Status.degraded
      ↔ (dnsValid = false ∧ dnsIssueCount ≤ 2) ∨ sslValid = false)
    ∧ (overallInfrastructureHealth dnsValid dnsIssueCount pagesValid workersValid sslValid
        = Status.unhealthy
      ↔ ¬(dnsValid = true ∧ pagesValid = true ∧ workersValid = true ∧ sslValid = true)
        ∧ ¬((dnsValid = false ∧ dnsIssueCount ≤ 2) ∨ sslValid = false)) := by
  cases dnsValid <;> cases pagesValid <;> cases workersValid <;> cases sslValid <;>
    by_cases h : dnsIssueCount ≤ 2 <;>
      simp [overallInfrastructureHealth, h]

/-- Witness for C1 (amended): DNS invalid with exactly 2 issues, everything
else valid, is degraded. -/
theorem infrastructure_overall_characterization_witness :
    overallInfrastructureHealth false 2 true true true = Status.degraded :=
  ((infrastructure_overall_characterization false true true true 2).2.1).mpr
    (Or.inl ⟨rfl, by decide⟩)

/-- The simple precedence aggregation of comprehensiveHealthCheck: count the
unhealthy components, then the degraded ones, and pick by precedence. -/
def aggregate (components : List Status) : Status :=
  let unhealthyServices := (components.filter (fun s => s == Status.unhealthy)).length
  let degradedServices := (components.filter (fun s => s == Status.degraded)).length
  if unhealthyServices > 0 then .unhealthy
  else if degradedServices > 0 then .degraded
  else .healthy

lemma mem_iff_filter_beq_length_pos (l : List Status) (s : Status) :
    s ∈ l ↔ 0 < (l.filter (fun x => x == s)).length := by
  induction l with
  | nil => simp
  | cons a t ih =>
      by_cases h : a = s
      · simp [List.filter_cons, h]
      · simp [List.filter_cons, h, Ne.symm h, ih]

lemma aggregate_eq_mem (l : List Status) :
    aggregate l = if Status.unhealthy ∈ l then .unhealthy
      else if Status.degraded ∈ l then .degraded else .healthy := by
  rw [aggregate]
  by_cases h1 : Status.unhealthy ∈ l <;> by_cases h2 : Status.degraded ∈ l <;>
    simp [h1, h2, ← mem_iff_filter_beq_length_pos]

/-- C5: the simple aggregation is unhealthy exactly when some component is
unhealthy, degraded exactly when none is unhealthy but some is degraded,
healthy otherwise; and it is invariant under reordering of the component
list. -/
theorem aggregate_precedence (components : List Status) :
    (aggregate components = Status.unhealthy ↔ Status.unhealthy ∈ components)
    ∧ (aggregate components = Status.degraded
        ↔ Status.unhealthy ∉ components ∧ Status.degraded ∈ components)
    ∧ (aggregate components = Status.healthy
        ↔ Status.unhealthy ∉ components ∧ Status.degraded ∉ components)
    ∧ ∀ l2 : List Status, components.Perm l2 → aggregate components = aggregate l2 := by
  refine ⟨?_, ?_, ?_, ?_⟩
  · by_cases h1 : Status.unhealthy ∈ components <;>
      by_cases h2 : Status.degraded ∈ components <;> simp [aggregate_eq_mem, h1, h2]
  · by_cases h1 : Status.unhealthy ∈ components <;>
      by_cases h2 : Status.degraded ∈ components <;> simp [aggregate_eq_mem, h1, h2]
  · by_cases h1 : Status.unhealthy ∈ components <;>
      by_cases h2 : Status.degraded ∈ components <;> simp [aggregate_eq_mem, h1, h2]
  · intro l2 hp
    simp [aggregate_eq_mem, hp.mem_iff]

/-- Witness for C5: applying the reordering clause to a concrete
permutation. -/
theorem aggregate_precedence_witness :
    aggregate [Status.healthy, Status.degraded] = aggregate [Status.degraded, Status.healthy] :=
  (aggregate_precedence [Status.healthy, Status.degraded]).2.2.2
    [Status.degraded, Status.healthy] (List.Perm.swap _ _ _)

/-- The deployment report status values. -/
inductive ReadyStatus
  | ready
  | issues
  | failed
deriving DecidableEq, Repr

/-- Math.round(num / den) on nonnegative rationals, as used for the
readiness percentage. -/
def natRound (num den : Nat) : Nat := (2 * num + den) / (2 * den)

/-- passedChecks of generateDeploymentReport: the four equally weighted
boolean checks. -/
def passedChecks (dnsValid pagesExists workersExist sslHealthy : Bool) : Nat :=
  (if dnsValid then 1 else 0) + (if pagesExists then 1 else 0)
    + (if workersExist then 1 else 0) + (if sslHealthy then 1 else 0)

/-- readiness = Math.round((passedChecks / totalChecks) * 100) with
totalChecks = 4. -/
def readinessPercent (passed : Nat) : Nat := natRound (passed * 100) 4

/-- The summary of generateDeploymentReport: the readiness percentage and
the thresholded status. -/
def deploymentReadiness (dnsValid pagesExists workersExist sslHealthy : Bool) :
    Nat × ReadyStatus :=
  let readiness := readinessPercent (passedChecks dnsValid pagesExists workersExist sslHealthy)
  (readiness, if readiness ≥ 100 then .ready else if readiness ≥ 75 then .issues else .failed)

/-- C6: the readiness score is the rounded percentage of passed checks, the
status is ready at score 100 and above, issues from 75 up to but excluding
100, failed below 75; and 3 of 4 checks passing gives score 75 with status
issues. -/
theorem readiness_report (dnsValid pagesExists workersExist sslHealthy : Bool) :
    ((deploymentReadiness dnsValid pagesExists workersExist sslHealthy).1
        = readinessPercent (passedChecks dnsValid pagesExists workersExist sslHealthy))
    ∧ ((deploymentReadiness dnsValid pagesExists workersExist sslHealthy).2 = ReadyStatus.ready
        ↔ 100 ≤ (deploymentReadiness dnsValid pagesExists workersExist sslHealthy).1)
    ∧ ((deploymentReadiness dnsValid pagesExists workersExist sslHealthy).2 = ReadyStatus.issues
        ↔ 75 ≤ (deploymentReadiness dnsValid pagesExists workersExist sslHealthy).1
          ∧ (deploymentReadiness dnsValid pagesExists workersExist sslHealthy).1 < 100)
    ∧ ((deploymentReadiness dnsValid pagesExists workersExist sslHealthy).2 = ReadyStatus.failed
        ↔ (deploymentReadiness dnsValid pagesExists workersExist sslHealthy).1 < 75)
    ∧ (passedChecks dnsValid pagesExists workersExist sslHealthy = 3 →
        deploymentReadiness dnsValid pagesExists workersExist sslHealthy
          = (75, ReadyStatus.issues)) := by
  cases dnsValid <;> cases pagesExists <;> cases workersExist <;> cases sslHealthy <;> decide

/-- Witness for C6: DNS invalid, the other three checks passing. -/
theorem readiness_report_witness :
    passedChecks false true true true = 3
      ∧ deploymentReadiness false true true true = (75, ReadyStatus.issues) :=
  ⟨by decide, (readiness_report false true true true).2.2.2.2 (by decide)⟩

/-- A deployed compute worker. -/
structure Worker where
  name : String
deriving DecidableEq, Repr

/-- A hosting (Pages) project. -/
structure PagesProject where
  name : String
  domains : List String
deriving DecidableEq, Repr

/-- An SSL certificate. -/
structure Certificate where
  id : String
deriving DecidableEq, Repr

/-- A DNS zone. -/
structure Zone where
  id : String
deriving DecidableEq, Repr

/-- One component entry of the health-check services record. -/
structure ServiceReport where
  status : Status
  count : Nat
deriving DecidableEq, Repr

/-- The services record of comprehensiveHealthCheck. -/
structure HealthServices where
  workers : ServiceReport
  pages : ServiceReport
  dns : ServiceReport
  ssl : ServiceReport
deriving DecidableEq, Repr

/-- The environment probes of comprehensiveHealthCheck (each probe catches
its own failures and returns a boolean). -/
structure EnvHealth where
  productionFrontend : Bool
  productionApi : Bool
  stagingFrontend : Bool
  stagingApi : Bool
deriving DecidableEq, Repr

/-- The full result of comprehensiveHealthCheck. -/
structure HealthCheckResult where
  status : Status
  services : HealthServices
  environments : EnvHealth
deriving DecidableEq, Repr

/-- The per-component statuses of comprehensiveHealthCheck: workers, pages
and dns are healthy when non-empty and unhealthy otherwise; ssl is healthy
when non-empty and only degraded otherwise. -/
def buildHealthServices (workers : List Worker) (pages : List PagesProject)
    (certificates : List Certificate) (dnsRecords : List DnsRecord) : HealthServices :=
  { workers := { status := if workers.length > 0 then .healthy else .unhealthy,
                 count := workers.length }
    pages := { status := if pages.length > 0 then .healthy else .unhealthy,
               count := pages.length }
    dns := { status := if dnsRecords.length > 0 then .healthy else .unhealthy,
             count := dnsRecords.length }
    ssl := { status := if certificates.length > 0 then .healthy else .degraded,
             count := certificates.length } }

/-- The overall composite status: the precedence aggregation over the four
component statuses. -/
def overallOfServices (s : HealthServices) : Status :=
  aggregate [s.workers.status, s.pages.status, s.dns.status, s.ssl.status]

/-- comprehensiveHealthCheck: the three required reads (workers, pages,
zones) propagate failure; the certificate read and the dns-record read are
caught into an empty list. -/
def comprehensiveHealthCheck (workersR : Except String (List Worker))
    (pagesR : Except String (List PagesProject)) (zonesR : Except String (List Zone))
    (certificatesR : Except String (List Certificate))
    (dnsRecordsR : Except String (List DnsRecord)) (envs : EnvHealth) :
    Except String HealthCheckResult :=
  match workersR with
  | .error e => .error e
  | .ok workers =>
    match pagesR with
    | .error e => .error e
    | .ok pages =>
      match zonesR with
      | .error e => .error e
      | .ok _zones =>
        let certificates := certificatesR.toOption.getD []
        let dnsRecords := dnsRecordsR.toOption.getD []
        let services := buildHealthServices workers pages certificates dnsRecords
        .ok { status := overallOfServices services, services := services,
              environments := envs }

/-- C7: the health check succeeds exactly when the three required reads
succeed, a returned error is one of the required-read errors (no partial
result), and a failing certificate read still yields the full result with a
certificate count of 0. -/
theorem healthCheck_failure_policy (workersR : Except String (List Worker))
    (pagesR : Except String (List PagesProject)) (zonesR : Except String (List Zone))
    (certificatesR : Except String (List Certificate))
    (dnsRecordsR : Except String (List DnsRecord)) (envs : EnvHealth) :
    ((comprehensiveHealthCheck workersR pagesR zonesR certificatesR dnsRecordsR envs).isOk
        = (workersR.isOk && pagesR.isOk && zonesR.isOk))
    ∧ (∀ e, comprehensiveHealthCheck workersR pagesR zonesR certificatesR dnsRecordsR envs
          = .error e →
        workersR = .error e ∨ pagesR = .error e ∨ zonesR = .error e)
    ∧ (∀ workers pages zones e,
        workersR = .ok workers → pagesR = .ok pages → zonesR = .ok zones →
        certificatesR = .error e →
        comprehensiveHealthCheck workersR pagesR zonesR certificatesR dnsRecordsR envs
          = .ok { status := overallOfServices
                    (buildHealthServices workers pages [] (dnsRecordsR.toOption.getD [])),
                  services := buildHealthServices workers pages []
                    (dnsRecordsR.toOption.getD []),
                  environments := envs }
        ∧ (buildHealthServices workers pages [] (dnsRecordsR.toOption.getD [])).ssl.count
            = 0) := by
  rcases workersR with e1 | w <;> rcases pagesR with e2 | p <;> rcases zonesR with e3 | z <;>
    rcases certificatesR with e4 | c <;>
      simp [comprehensiveHealthCheck, Except.isOk, Except.toBool, Except.toOption,
        buildHealthServices]
  intros
  subst_vars
  simp

/-- Witness for C7: required reads succeed, the certificate read fails, and
the full result comes back with certificate count 0. -/
theorem healthCheck_failure_policy_witness :
    comprehensiveHealthCheck (Except.ok []) (Except.ok []) (Except.ok ([] : List Zone))
        (Except.error "transport failure") (Except.ok ([] : List DnsRecord))
        ⟨true, true, true, true⟩
      = Except.ok { status := overallOfServices (buildHealthServices [] [] [] []),
                    services := buildHealthServices [] [] [] [],
                    environments := ⟨true, true, true, true⟩ }
    ∧ (buildHealthServices [] [] [] []).ssl.count = 0 := by
  exact (healthCheck_failure_policy (Except.ok []) (Except.ok []) (Except.ok [])
    (Except.error "transport failure") (Except.ok []) ⟨true, true, true, true⟩).2.2
    [] [] [] "transport failure" rfl rfl rfl rfl

/-- C10: the ssl component status is never unhealthy, it is degraded exactly
when the certificate count is 0, and when the other three components are
non-empty the composite status is never unhealthy (an empty or unreadable
certificate set alone lowers it at worst to degraded). -/
theorem ssl_component_bounded (workers : List Worker) (pages : List PagesProject)
    (certificates : List Certificate) (dnsRecords : List DnsRecord) :
    ((buildHealthServices workers pages certificates dnsRecords).ssl.status
        ≠ Status.unhealthy)
    ∧ ((buildHealthServices workers pages certificates dnsRecords).ssl.status
        = Status.degraded ↔ certificates.length = 0)
    ∧ (workers ≠ [] → pages ≠ [] → dnsRecords ≠ [] →
        overallOfServices (buildHealthServices workers pages certificates dnsRecords)
          ≠ Status.unhealthy) := by
  refine ⟨?_, ?_, ?_⟩
  · cases certificates <;> simp [buildHealthServices]
  · cases certificates <;> simp [buildHealthServices]
  · intro hw hp hd
    have hw2 : 0 < workers.length := List.length_pos.mpr hw
    have hp2 : 0 < pages.length := List.length_pos.mpr hp
    have hd2 : 0 < dnsRecords.length := List.length_pos.mpr hd
    cases certificates <;>
      simp [buildHealthServices, overallOfServices, aggregate_eq_mem, hw2, hp2, hd2]

/-- Witness for C10: one worker, one project, one DNS record, no
certificates: the composite status is not unhealthy. -/
theorem ssl_component_bounded_witness :
    overallOfServices (buildHealthServices [{ name := "connectree-api" }]
        [{ name := "connectree", domains := ["connectree.cc"] }] []
        [{ id := "r1", name := "connectree.cc", type := "CNAME",
           content := "connectree.pages.dev", proxied := true, ttl := 1 }])
      ≠ Status.unhealthy :=
  (ssl_component_bounded [{ name := "connectree-api" }]
      [{ name := "connectree", domains := ["connectree.cc"] }] []
      [{ id := "r1", name := "connectree.cc", type := "CNAME",
         content := "connectree.pages.dev", proxied := true, ttl := 1 }]).2.2
    (by decide) (by decide) (by decide)

/-- Deployment environments. -/
inductive Env
  | staging
  | production
deriving DecidableEq, Repr

/-- The options of prepareDeploymentEnvironment. -/
structure PrepOptions where
  validateDns : Bool
  autoFixDns : Bool
  ensurePages : Bool
  validateWorkers : Bool
deriving DecidableEq, Repr

/-- The issue and warning messages produced by prepareDeploymentEnvironment,
by their originating branch. -/
inductive PrepMsg
  | pagesCreateFailed (err : String)
  | pagesMissing
  | workersCheckFailed (err : String)
  | missingWorkers (names : List String)
  | dnsIssuesFound (count : Nat)
  | dnsValidationFailed (err : String)
deriving DecidableEq, Repr

/-- Whether a message reports missing compute deployments. -/
def PrepMsg.isMissingWorkers : PrepMsg → Bool
  | .missingWorkers _ => true
  | _ => false

/-- The workers expected for each environment. -/
def expectedWorkersFor : Env → List String
  | .production => ["connectree-api"]
  | .staging => ["connectree-api-staging"]

/-- Outcome of the hosting-project section. -/
structure PagesCheck where
  found : Bool
  domains : List String
  issues : List PrepMsg
deriving DecidableEq, Repr

/-- Outcome of the compute-deployment section. -/
structure WorkersCheck where
  valid : Bool
  names : List String
  issues : List PrepMsg
  warnings : List PrepMsg
deriving DecidableEq, Repr

/-- Outcome of the DNS section. -/
structure DnsCheck where
  valid : Bool
  dnsIssues : List Issue
  issues : List PrepMsg
  warnings : List PrepMsg
deriving DecidableEq, Repr

/-- The hosting-project section: a failed fetch is either repaired by a
create (when ensurePages is set) or recorded as a hard issue. -/
def checkPagesStep (opts : PrepOptions) (pagesFetch : Except String (List String))
    (createPages : Except String Unit) : PagesCheck :=
  match pagesFetch with
  | .ok domains => { found := true, domains := domains, issues := [] }
  | .error _ =>
    if opts.ensurePages then
      match createPages with
      | .ok _ => { found := true, domains := [], issues := [] }
      | .error e => { found := false, domains := [], issues := [.pagesCreateFailed e] }
    else { found := false, domains := [], issues := [.pagesMissing] }

/-- The compute-deployment section: a failed list read is a hard issue;
missing expected workers are a warning. -/
def checkWorkersStep (env : Env) (workersR : Except String (List String)) : WorkersCheck :=
  match workersR with
  | .ok names =>
    let missing := (expectedWorkersFor env).filter (fun n => !(names.contains n))
    if missing.isEmpty then { valid := true, names := names, issues := [], warnings := [] }
    else { valid := false, names := names, issues := [], warnings := [.missingWorkers missing] }
  | .error e => { valid := false, names := [], issues := [.workersCheckFailed e], warnings := [] }

/-- The DNS section: only run when validateDns is set; a thrown validation is
a hard issue; an invalid result without auto-fix adds a warning. -/
def checkDnsStep (opts : PrepOptions) (dnsR : Except String DnsValidationResult) : DnsCheck :=
  if opts.validateDns then
    match dnsR with
    | .ok v =>
      { valid := v.valid, dnsIssues := v.issues, issues := [],
        warnings := if !v.valid && !opts.autoFixDns then [.dnsIssuesFound v.issues.length]
          else [] }
    | .error e =>
      { valid := false, dnsIssues := [], issues := [.dnsValidationFailed e], warnings := [] }
  else { valid := false, dnsIssues := [], issues := [], warnings := [] }

/-- The resources record returned by prepareDeploymentEnvironment. -/
structure PrepResources where
  pagesExists : Bool
  pagesDomains : List String
  workersExists : Bool
  workerNames : List String
  dnsValid : Bool
  dnsIssues : List Issue
deriving DecidableEq, Repr

/-- The result of prepareDeploymentEnvironment. -/
structure PrepResult where
  ready : Bool
  issues : List PrepMsg
  warnings : List PrepMsg
  environment : Env
  resources : PrepResources
deriving DecidableEq, Repr

/-- prepareDeploymentEnvironment: run the three sections, concatenate their
issues and warnings in source order, and compute ready from the issues and
the DNS validity. -/
def prepareDeploymentEnvironment (env : Env) (opts : PrepOptions)
    (pagesFetch : Except String (List String)) (createPages : Except String Unit)
    (workersR : Except String (List String))
    (dnsR : Except String DnsValidationResult) : PrepResult :=
  let p := checkPagesStep opts pagesFetch createPages
  let w := checkWorkersStep env workersR
  let d := checkDnsStep opts dnsR
  let issues := p.issues ++ w.issues ++ d.issues
  { ready := (issues.length == 0) && (if opts.validateDns then d.valid else true)
    issues := issues
    warnings := w.warnings ++ d.warnings
    environment := env
    resources := { pagesExists := p.found, pagesDomains := p.domains,
                   workersExists := w.valid, workerNames := w.names,
                   dnsValid := d.valid, dnsIssues := d.dnsIssues } }

lemma checkPagesStep_no_missingWorkers (opts : PrepOptions)
    (pagesFetch : Except String (List String)) (createPages : Except String Unit) :
    ∀ m ∈ (checkPagesStep opts pagesFetch createPages).issues, m.isMissingWorkers = false := by
  rcases pagesFetch with e | doms
  · rcases createPages with e2 | u <;>
      by_cases h : opts.ensurePages <;>
        simp [checkPagesStep, h, PrepMsg.isMissingWorkers]
  · simp [checkPagesStep]

lemma checkWorkersStep_no_missingWorkers (env : Env) (workersR : Except String (List String)) :
    ∀ m ∈ (checkWorkersStep env workersR).issues, m.isMissingWorkers = false := by
  rcases workersR with e | names
  · simp [checkWorkersStep, PrepMsg.isMissingWorkers]
  · intro m hm
    revert hm
    simp only [checkWorkersStep]
    split <;> simp

lemma checkDnsStep_no_missingWorkers (opts : PrepOptions)
    (dnsR : Except String DnsValidationResult) :
    ∀ m ∈ (checkDnsStep opts dnsR).issues, m.isMissingWorkers = false := by
  rcases dnsR with e | v <;>
    by_cases h : opts.validateDns <;>
      simp [checkDnsStep, h, PrepMsg.isMissingWorkers]

/-- C8: the ready flag equals (no issues AND, when validateDns is set, the
returned DNS validity); no issue ever reports missing workers (so warnings
are the only place missing deployments appear, and they do not enter the
ready computation); and whenever the worker list read succeeds with some
expected worker absent, the missing-workers message is in the warnings. -/
theorem prepare_environment_ready (env : Env) (opts : PrepOptions)
    (pagesFetch : Except String (List String)) (createPages : Except String Unit)
    (workersR : Except String (List String)) (dnsR : Except String DnsValidationResult) :
    ((prepareDeploymentEnvironment env opts pagesFetch createPages workersR dnsR).ready
      = (((prepareDeploymentEnvironment env opts pagesFetch createPages workersR
            dnsR).issues.length == 0)
        && (if opts.validateDns then
              (prepareDeploymentEnvironment env opts pagesFetch createPages workersR
                dnsR).resources.dnsValid
            else true)))
    ∧ (∀ m ∈ (prepareDeploymentEnvironment env opts pagesFetch createPages workersR
          dnsR).issues, m.isMissingWorkers = false)
    ∧ (∀ names, workersR = .ok names →
        ((expectedWorkersFor env).filter (fun n => !(names.contains n))).isEmpty = false →
        PrepMsg.missingWorkers ((expectedWorkersFor env).filter (fun n => !(names.contains n)))
          ∈ (prepareDeploymentEnvironment env opts pagesFetch createPages workersR
              dnsR).warnings) := by
  refine ⟨rfl, ?_, ?_⟩
  · intro m hm
    rw [prepareDeploymentEnvironment] at hm
    simp only [List.mem_append] at hm
    rcases hm with (hm | hm) | hm
    · exact checkPagesStep_no_missingWorkers opts pagesFetch createPages m hm
    · exact checkWorkersStep_no_missingWorkers env workersR m hm
    · exact checkDnsStep_no_missingWorkers opts dnsR m hm
  · intro names hok hmiss
    subst hok
    have hw : (checkWorkersStep env (.ok names)).warnings
        = [PrepMsg.missingWorkers
            ((expectedWorkersFor env).filter (fun n => !(names.contains n)))] := by
      simp only [checkWorkersStep]
      rw [hmiss]
      simp
    rw [prepareDeploymentEnvironment]
    simp only [List.mem_append]
    left
    rw [hw]
    exact List.mem_singleton.mpr rfl

/-- Witness for C8: in production with an empty worker list, the
missing-workers warning is present. -/
theorem prepare_environment_ready_witness :
    PrepMsg.missingWorkers ["connectree-api"]
      ∈ (prepareDeploymentEnvironment Env.production
          { validateDns := false, autoFixDns := false, ensurePages := false,
            validateWorkers := true }
          (Except.ok []) (Except.ok ()) (Except.ok []) (Except.error "skipped")).warnings := by
  have h := (prepare_environment_ready Env.production
    { validateDns := false, autoFixDns := false, ensurePages := false,
      validateWorkers := true }
    (Except.ok []) (Except.ok ()) (Except.ok []) (Except.error "skipped")).2.2
    [] rfl (by decide)
  exact h

end CloudFlareManager
